import Mathlib

/-!
Shallow embedding of the publishing decision pipeline of the
`imrantweetbot` repository: safety checks (`app/safety_enhanced.py`,
legacy `app/src/safety.py`), quota admission control (`app/quota.py`),
the audit store (`app/audit_db.py`), the duplicate detector and the
orchestrator (`app/poster_safe.py`).

Python strings are embedded as `String`, timestamps as `Int` seconds,
SQLite rows as Lean structures, and the tables of the audit database as
lists.  Fallible collaborators are embedded as `Option`/sum types.
-/

namespace TweetBot

/-- Substring test on character lists: `needle` occurs somewhere in `hay`.
Embeds Python's `needle in hay` operator on strings. -/
def charsContains (hay needle : List Char) : Bool :=
  hay.tails.any (fun t => needle.isPrefixOf t)

/-- Substring test on strings (`needle in hay` in Python). -/
def strContainsSub (hay needle : String) : Bool :=
  charsContains hay.data needle.data

/-- Python's `str.lower()`, embedded characterwise. -/
def pyLower (s : String) : String :=
  String.mk (s.data.map Char.toLower)

/-- Python's `str.strip()`: remove whitespace from both ends. -/
def pyStrip (s : String) : String :=
  String.mk (((s.data.dropWhile Char.isWhitespace).reverse.dropWhile
    Char.isWhitespace).reverse)

/-! ## `app/safety_enhanced.py` -/

namespace SafetyEnhanced

/-- `PROFANITY_KEYWORDS` from `app/safety_enhanced.py`. -/
def PROFANITY_KEYWORDS : List String :=
  ["badword1", "badword2", "offensive"]

/-- `FINANCIAL_ADVICE_KEYWORDS` from `app/safety_enhanced.py`. -/
def FINANCIAL_ADVICE_KEYWORDS : List String :=
  ["buy now", "sell now", "guaranteed", "sure thing", "investment advice",
   "guaranteed return", "will make you money", "can't lose", "easy profit",
   "pump", "dump", "moon", "to the moon"]

/-- `SUSPICIOUS_URL_PATTERNS` from `app/safety_enhanced.py`; each regex is a
literal string once the escaped dot is unescaped, searched case-insensitively
as a substring. -/
def SUSPICIOUS_URL_PATTERNS : List String :=
  ["bit.ly", "tinyurl", "short.link"]

/-- `TOXICITY_KEYWORDS` from `app/safety_enhanced.py`. -/
def TOXICITY_KEYWORDS : List String :=
  ["scam", "rug pull", "exit scam", "hack", "stolen"]

/-- `SafetyCheckResult` from `app/safety_enhanced.py`. -/
structure SafetyCheckResult where
  passed : Bool
  flags : List String
  details : String
deriving Repr, DecidableEq

/-- `check_length`: text within the 280-character limit. -/
def check_length (text : String) : SafetyCheckResult :=
  if text.length ≤ 280 then ⟨true, [], ""⟩
  else ⟨false, ["text_too_long"],
    "Text is " ++ toString text.length ++ " chars, max 280 allowed"⟩

/-- `check_profanity`: case-insensitive substring match against the
profanity denylist. -/
def check_profanity (text : String) : SafetyCheckResult :=
  let lowered := pyLower text
  let found := PROFANITY_KEYWORDS.filter (fun kw => strContainsSub lowered kw)
  if found.isEmpty then ⟨true, [], ""⟩
  else ⟨false, ["profanity_detected"],
    "Found profanity: " ++ String.intercalate ", " found⟩

/-- `check_financial_advice`: case-insensitive substring match against the
financial-advice denylist.  Note: this function has no disclaimer override. -/
def check_financial_advice (text : String) : SafetyCheckResult :=
  let lowered := pyLower text
  let found := FINANCIAL_ADVICE_KEYWORDS.filter (fun kw => strContainsSub lowered kw)
  if found.isEmpty then ⟨true, [], ""⟩
  else ⟨false, ["financial_advice_detected"],
    "Found financial advice keywords: " ++ String.intercalate ", " found⟩

/-- One step of matching the regex `https?://` at the head of a character
list: returns the matched scheme characters and the remainder. -/
def matchHttpScheme (cs : List Char) : Option (List Char × List Char) :=
  if ("https://".data).isPrefixOf cs then
    some ("https://".data, cs.drop 8)
  else if ("http://".data).isPrefixOf cs then
    some ("http://".data, cs.drop 7)
  else none

/-- Try to match the regex `https?://[^\s]+` at the head of a character
list (the scheme followed by at least one non-whitespace character,
matched greedily). -/
def tryMatchUrl (cs : List Char) : Option (List Char × List Char) :=
  match matchHttpScheme cs with
  | none => none
  | some (scheme, rest) =>
    let body := rest.takeWhile (fun c => !c.isWhitespace)
    if body.isEmpty then none
    else some (scheme ++ body, rest.drop body.length)

/-- Worker for `re.findall(r'https?://[^\s]+', text)`: scan left to right,
collecting non-overlapping greedy matches.  The fuel argument starts at the
length of the list and bounds the number of scanning steps. -/
def findUrlsAux : Nat → List Char → List String
  | 0, _ => []
  | _, [] => []
  | Nat.succ fuel, c :: rest =>
    match tryMatchUrl (c :: rest) with
    | some (url, rest2) => String.mk url :: findUrlsAux fuel rest2
    | none => findUrlsAux fuel rest

/-- All URLs in the text, as found by `re.findall(r'https?://[^\s]+', text)`. -/
def findUrls (text : String) : List String :=
  findUrlsAux text.data.length text.data

/-- `check_urls`: flag any embedded URL matching a suspicious-shortener
pattern (case-insensitive). -/
def check_urls (text : String) : SafetyCheckResult :=
  let urls := findUrls text
  if urls.isEmpty then ⟨true, [], ""⟩
  else
    let suspicious := urls.filter (fun url =>
      SUSPICIOUS_URL_PATTERNS.any (fun pat => strContainsSub (pyLower url) pat))
    if suspicious.isEmpty then ⟨true, [], ""⟩
    else ⟨false, ["suspicious_urls"],
      "Found suspicious URLs: " ++ String.intercalate ", " suspicious⟩

/-- `check_toxicity`: denylisted accusation terms flagged only when the text
is shorter than 100 characters. -/
def check_toxicity (text : String) : SafetyCheckResult :=
  let lowered := pyLower text
  let found := TOXICITY_KEYWORDS.filter (fun kw => strContainsSub lowered kw)
  if !found.isEmpty && text.length < 100 then
    ⟨false, ["potential_toxicity"],
      "Short text with serious accusations: " ++ String.intercalate ", " found⟩
  else ⟨true, [], ""⟩

/-- `check_minimum_length`: reject near-empty text (stripped length < 5). -/
def check_minimum_length (text : String) : SafetyCheckResult :=
  if (pyStrip text).length < 5 then
    ⟨false, ["text_too_short"], "Text too short to be meaningful"⟩
  else ⟨true, [], ""⟩

/-- A safety check as seen by `run_safety_checks`: a named function from
text to a result, where `none` embeds the check raising an exception. -/
def Check : Type := String → Option SafetyCheckResult

/-- `SAFETY_CHECKS`: the fixed, ordered pipeline of checks.  Every concrete
check in the source is total, so each is wrapped with `some`. -/
def SAFETY_CHECKS : List (String × Check) :=
  [("length", fun t => some (check_length t)),
   ("minimum_length", fun t => some (check_minimum_length t)),
   ("profanity", fun t => some (check_profanity t)),
   ("financial_advice", fun t => some (check_financial_advice t)),
   ("urls", fun t => some (check_urls t)),
   ("toxicity", fun t => some (check_toxicity t))]

/-- The flags contributed by one check in the loop body of
`run_safety_checks`: a passing check contributes nothing, a failing check
contributes its flags, and a check that raises contributes the synthetic
flag `<name>_error`. -/
def checkFlags (text : String) (name : String) (f : Check) : List String :=
  match f text with
  | some r => if r.passed then [] else r.flags
  | none => [name ++ "_error"]

/-- The flag accumulation loop of `run_safety_checks` over a list of checks. -/
def runFlags (checks : List (String × Check)) (text : String) : List String :=
  match checks with
  | [] => []
  | (name, f) :: rest => checkFlags text name f ++ runFlags rest text

/-- `run_safety_checks`, generic in the check list: returns
`(passed, flags)` where `passed` is `flags == []`. -/
def run_safety_checks (checks : List (String × Check)) (text : String) :
    Bool × List String :=
  let all_flags := runFlags checks text
  (all_flags.isEmpty, all_flags)

/-- `passes_safety` from `app/safety_enhanced.py`. -/
def passes_safety (text : String) : Bool :=
  (run_safety_checks SAFETY_CHECKS text).1

/-- `get_safety_flags` from `app/safety_enhanced.py`. -/
def get_safety_flags (text : String) : List String :=
  (run_safety_checks SAFETY_CHECKS text).2

end SafetyEnhanced

/-! ## Legacy `app/src/safety.py` (not used by the publishing pipeline) -/

namespace LegacySafety

/-- `FIN_ADVICE_TERMS` from `app/src/safety.py`. -/
def FIN_ADVICE_TERMS : List String :=
  ["buy now", "guarantee", "sure thing", "guaranteed return",
   "financial advice", "invest now", "investment advice"]

/-- `IGNORE_PHRASES` from `app/src/safety.py`: disclaimer phrases that
suppress the financial-claim check entirely. -/
def IGNORE_PHRASES : List String :=
  ["not financial advice", "not investment advice"]

/-- `contains_financial_claim` from `app/src/safety.py`: returns `false`
outright when any disclaimer phrase occurs, else tests the denylist. -/
def contains_financial_claim (text : String) : Bool :=
  let lowered := pyLower text
  if IGNORE_PHRASES.any (fun ig => strContainsSub lowered ig) then false
  else FIN_ADVICE_TERMS.any (fun term => strContainsSub lowered term)

end LegacySafety

/-! ## `app/quota.py` -/

namespace Quota

/-- Modelled from the spec: the cap configuration values that
`app/quota.py` reads from `Config` (`POSTS_PER_DAY`, `REPLIES_PER_DAY`,
`GLOBAL_REPLIES_PER_HOUR`, `REPLIES_PER_USER_PER_HOUR`,
`MONTHLY_WRITE_LIMIT`, `MONTHLY_WRITE_LIMIT_DAYS`) are absent from
`app/config.py` in the sources; they are environment-derived integers, so
they are embedded as parameters. -/
structure QuotaConfig where
  POSTS_PER_DAY : Int
  REPLIES_PER_DAY : Int
  GLOBAL_REPLIES_PER_HOUR : Int
  REPLIES_PER_USER_PER_HOUR : Int
  MONTHLY_WRITE_LIMIT : Int
  MONTHLY_WRITE_LIMIT_DAYS : Int
deriving Repr, DecidableEq

/-- `QuotaManager.DAY_SECONDS`. -/
def DAY_SECONDS : Int := 24 * 60 * 60

/-- The mutable state of a `QuotaManager`: the five sliding-window event
deques, each a list of timestamps (seconds) in arrival order.  The
per-user dictionary (`defaultdict(deque)`) is embedded as a total function
defaulting to the empty list. -/
structure QuotaState where
  post_events : List Int
  reply_daily_events : List Int
  reply_hour_events : List Int
  reply_user_hour_events : String → List Int
  monthly_events : List Int

/-- The fresh state built by `QuotaManager.__init__`. -/
def initState : QuotaState :=
  { post_events := [], reply_daily_events := [], reply_hour_events := [],
    reply_user_hour_events := fun _ => [], monthly_events := [] }

/-- `QuotaManager._prune`: drop from the front of the deque every event
older than `now - window_seconds`. -/
def prune (events : List Int) (window_seconds now : Int) : List Int :=
  events.dropWhile (fun t => t < now - window_seconds)

/-- `self._month_window` computed in `QuotaManager.__init__`. -/
def month_window (cfg : QuotaConfig) : Int :=
  cfg.MONTHLY_WRITE_LIMIT_DAYS * DAY_SECONDS

/-- `QuotaManager._check_monthly_budget`: pass outright when the monthly
limit is non-positive, else prune the monthly window and compare its count
against the limit.  Returns the status pair together with the state after
the pruning side effect. -/
def check_monthly_budget (cfg : QuotaConfig) (now : Int) (st : QuotaState) :
    (Bool × String) × QuotaState :=
  if cfg.MONTHLY_WRITE_LIMIT ≤ 0 then ((true, ""), st)
  else
    let m := prune st.monthly_events (month_window cfg) now
    if cfg.MONTHLY_WRITE_LIMIT ≤ (m.length : Int) then
      ((false, "monthly_write_limit_reached"), { st with monthly_events := m })
    else
      ((true, ""), { st with monthly_events := m })

/-- `QuotaManager.can_post`: monthly budget first, then the daily post
window with effective cap `max(POSTS_PER_DAY, 1)`. -/
def can_post (cfg : QuotaConfig) (now : Int) (st : QuotaState) :
    (Bool × String) × QuotaState :=
  match check_monthly_budget cfg now st with
  | ((false, reason), st1) => ((false, reason), st1)
  | ((true, _), st1) =>
    let post_cap := max cfg.POSTS_PER_DAY 1
    let pruned := prune st1.post_events DAY_SECONDS now
    let st2 := { st1 with post_events := pruned }
    if post_cap ≤ (pruned.length : Int) then
      ((false, "post_daily_quota_reached"), st2)
    else ((true, ""), st2)

/-- `QuotaManager.record_post`: append the current timestamp to the post
and monthly windows. -/
def record_post (now : Int) (st : QuotaState) : QuotaState :=
  { st with post_events := st.post_events ++ [now],
            monthly_events := st.monthly_events ++ [now] }

/-- The reply bucket key: `str(author_id) if author_id else "unknown"`
(Python truthiness: both `None` and the empty string fall back). -/
def userKey (author_id : Option String) : String :=
  match author_id with
  | some s => if s = "" then "unknown" else s
  | none => "unknown"

/-- `QuotaManager.can_reply`: monthly budget, then daily, global-hourly and
per-author-hourly reply windows in that order, each with effective cap
`max(cap, 1)`. -/
def can_reply (cfg : QuotaConfig) (now : Int) (author_id : Option String)
    (st : QuotaState) : (Bool × String) × QuotaState :=
  match check_monthly_budget cfg now st with
  | ((false, reason), st1) => ((false, reason), st1)
  | ((true, _), st1) =>
    let daily_cap := max cfg.REPLIES_PER_DAY 1
    let hourly_cap := max cfg.GLOBAL_REPLIES_PER_HOUR 1
    let per_user_cap := max cfg.REPLIES_PER_USER_PER_HOUR 1
    let daily := prune st1.reply_daily_events DAY_SECONDS now
    let st2 := { st1 with reply_daily_events := daily }
    if daily_cap ≤ (daily.length : Int) then
      ((false, "reply_daily_quota_reached"), st2)
    else
      let hourly := prune st2.reply_hour_events 3600 now
      let st3 := { st2 with reply_hour_events := hourly }
      if hourly_cap ≤ (hourly.length : Int) then
        ((false, "reply_global_hourly_quota_reached"), st3)
      else
        let key := userKey author_id
        let user_events := prune (st3.reply_user_hour_events key) 3600 now
        let st4 := { st3 with reply_user_hour_events :=
          fun k => if k = key then user_events else st3.reply_user_hour_events k }
        if per_user_cap ≤ (user_events.length : Int) then
          ((false, "reply_user_hourly_quota_reached"), st4)
        else ((true, ""), st4)

/-- `QuotaManager.record_reply`: append the current timestamp to the daily,
global-hourly, per-author-hourly and monthly windows. -/
def record_reply (now : Int) (author_id : Option String) (st : QuotaState) :
    QuotaState :=
  let key := userKey author_id
  { st with
    reply_daily_events := st.reply_daily_events ++ [now],
    reply_hour_events := st.reply_hour_events ++ [now],
    reply_user_hour_events :=
      fun k => if k = key then st.reply_user_hour_events k ++ [now]
               else st.reply_user_hour_events k,
    monthly_events := st.monthly_events ++ [now] }

end Quota

/-! ## `app/audit_db.py` -/

namespace Audit

/-- A row of the `drafts` table.  Draft ids are the row positions in the
`DB.drafts` list (SQLite assigns them by `AUTOINCREMENT`; the embedding
uses 0-based positions uniformly).  The `safety_flags` TEXT column holds a
serialization of the flag list; it is embedded as the list itself. -/
structure Draft where
  text : String
  context : Option String
  status : String
  safety_passed : Bool
  safety_flags : List String
  posted_tweet_id : Option String
  posted_at : Option Nat
  error_message : Option String
  reviewed_by : Option String
  reviewed_at : Option Nat
  ab_variant : Option String
deriving Repr, DecidableEq

/-- A row of the `review_queue` table.  `created_at` is stamped from the
logical write clock of the database. -/
structure ReviewQueueEntry where
  draft_id : Nat
  reason : String
  priority : String
  created_at : Nat
  reviewed : Bool
  reviewed_at : Option Nat
  reviewer_decision : Option String
  reviewer_notes : Option String
deriving Repr, DecidableEq

/-- A row of the `posts` table (engagement counters omitted: they are only
touched by the out-of-band metrics refresh). -/
structure PostRow where
  draft_id : Nat
  tweet_id : String
  text : String
  posted_at : Nat
deriving Repr, DecidableEq

/-- The audit database.  `clock` is a logical counter standing in for
`CURRENT_TIMESTAMP`: it advances at every mutating operation, so rows
written by later operations carry strictly larger timestamps. -/
structure DB where
  drafts : List Draft
  review_queue : List ReviewQueueEntry
  posts : List PostRow
  clock : Nat
deriving Repr, DecidableEq

/-- The freshly initialized database (`AuditDB._init_db` creates empty
tables). -/
def emptyDB : DB := { drafts := [], review_queue := [], posts := [], clock := 0 }

/-- `UPDATE ... WHERE id = i` on a list of rows: apply `f` to the row at
position `i`, leave everything else unchanged (a no-op when `i` is out of
range, as in SQL). -/
def updateAt {α : Type} : Nat → (α → α) → List α → List α
  | _, _, [] => []
  | 0, f, d :: rest => f d :: rest
  | Nat.succ i, f, d :: rest => d :: updateAt i f rest

/-- `AuditDB.log_draft`: insert a new draft row with status
`pending_approval` or `queued` depending on `Config.REQUIRE_POST_APPROVAL`,
returning its id. -/
def log_draft (require_approval : Bool) (text : String) (context : Option String)
    (safety_passed : Bool) (safety_flags : List String)
    (ab_variant : Option String) (db : DB) : Nat × DB :=
  let status_val := if require_approval then "pending_approval" else "queued"
  let d : Draft :=
    { text := text, context := context, status := status_val,
      safety_passed := safety_passed, safety_flags := safety_flags,
      posted_tweet_id := none, posted_at := none, error_message := none,
      reviewed_by := none, reviewed_at := none, ab_variant := ab_variant }
  (db.drafts.length, { db with drafts := db.drafts ++ [d], clock := db.clock + 1 })

/-- The raw `UPDATE drafts SET ... WHERE id = ?` statements issued through
`_get_connection` by the orchestrator (safety results, dry-run status,
error status). -/
def updateDraft (db : DB) (draft_id : Nat) (f : Draft → Draft) : DB :=
  { db with drafts := updateAt draft_id f db.drafts, clock := db.clock + 1 }

/-- The `review_queue` transform of `AuditDB.queue_for_review`:
`INSERT ... ON CONFLICT(draft_id) DO UPDATE SET priority = excluded.priority`.
On conflict only the priority is replaced; the stored reason is untouched. -/
def rqUpsert (rq : List ReviewQueueEntry) (draft_id : Nat) (reason priority : String)
    (now : Nat) : List ReviewQueueEntry :=
  if rq.any (fun e => e.draft_id = draft_id) then
    rq.map (fun e => if e.draft_id = draft_id then { e with priority := priority } else e)
  else
    rq ++ [{ draft_id := draft_id, reason := reason, priority := priority,
             created_at := now, reviewed := false, reviewed_at := none,
             reviewer_decision := none, reviewer_notes := none }]

/-- `AuditDB.queue_for_review`. -/
def queue_for_review (db : DB) (draft_id : Nat) (reason priority : String) : DB :=
  { db with review_queue := rqUpsert db.review_queue draft_id reason priority db.clock,
            clock := db.clock + 1 }

/-- SQLite BINARY comparison of two strings (memcmp over the UTF-8 bytes;
code-point order coincides with byte order for UTF-8). -/
def binLt : List Char → List Char → Bool
  | [], [] => false
  | [], _ :: _ => true
  | _ :: _, [] => false
  | a :: as, b :: bs => if a < b then true else if b < a then false else binLt as bs

/-- The comparison realized by `ORDER BY rq.priority DESC, rq.created_at ASC`:
`a` is emitted no later than `b`. -/
def rqOrder (a b : ReviewQueueEntry × String × List String) : Bool :=
  if binLt b.1.priority.data a.1.priority.data then true
  else if binLt a.1.priority.data b.1.priority.data then false
  else a.1.created_at ≤ b.1.created_at

/-- Insert into a sorted list, after every element that precedes `x`. -/
def insertSorted {α : Type} (le : α → α → Bool) (x : α) : List α → List α
  | [] => [x]
  | y :: ys => if le x y then x :: y :: ys else y :: insertSorted le x ys

/-- Stable sort by the given precedence test; models the `ORDER BY` clause
of the query. -/
def sortRows {α : Type} (le : α → α → Bool) : List α → List α
  | [] => []
  | x :: xs => insertSorted le x (sortRows le xs)

/-- `AuditDB.get_review_queue`: select the (optionally unreviewed) queue
entries joined with their draft's text and safety flags, ordered by
`rq.priority DESC, rq.created_at ASC`. -/
def get_review_queue (db : DB) (only_unreviewed : Bool) :
    List (ReviewQueueEntry × String × List String) :=
  let rows := db.review_queue.filter (fun e => if only_unreviewed then !e.reviewed else true)
  let joined := rows.filterMap
    (fun e => (db.drafts.get? e.draft_id).map (fun d => (e, d.text, d.safety_flags)))
  sortRows rqOrder joined

/-- `AuditDB.approve_for_posting`: one transaction stamping the draft
`approved` and resolving the queue entry. -/
def approve_for_posting (db : DB) (draft_id : Nat) (reviewer : String)
    (notes : Option String) : DB :=
  { db with
    drafts := updateAt draft_id
      (fun d => { d with status := "approved", reviewed_by := some reviewer,
                         reviewed_at := some db.clock }) db.drafts,
    review_queue := db.review_queue.map (fun e =>
      if e.draft_id = draft_id then
        { e with reviewed := true, reviewer_decision := some "approved",
                 reviewer_notes := notes, reviewed_at := some db.clock }
      else e),
    clock := db.clock + 1 }

/-- `AuditDB.reject_draft`: one transaction stamping the draft `rejected`
and resolving the queue entry.  The `reason` argument of the source is only
logged, never stored. -/
def reject_draft (db : DB) (draft_id : Nat) (reviewer : String) (_reason : String)
    (notes : Option String) : DB :=
  { db with
    drafts := updateAt draft_id
      (fun d => { d with status := "rejected", reviewed_by := some reviewer,
                         reviewed_at := some db.clock }) db.drafts,
    review_queue := db.review_queue.map (fun e =>
      if e.draft_id = draft_id then
        { e with reviewed := true, reviewer_decision := some "rejected",
                 reviewer_notes := notes, reviewed_at := some db.clock }
      else e),
    clock := db.clock + 1 }

/-- `AuditDB.log_posted_tweet`: one transaction setting the draft to
`posted` with its external tweet id and inserting the `posts` row. -/
def log_posted_tweet (db : DB) (draft_id : Nat) (tweet_id text : String) : DB :=
  { db with
    drafts := updateAt draft_id
      (fun d => { d with status := "posted", posted_tweet_id := some tweet_id,
                         posted_at := some db.clock }) db.drafts,
    posts := db.posts ++ [{ draft_id := draft_id, tweet_id := tweet_id,
                            text := text, posted_at := db.clock }],
    clock := db.clock + 1 }

end Audit

/-! ## `_is_duplicate` from `app/poster_safe.py` -/

namespace Poster

/-- The scanning loop of `_is_duplicate` over the fetched rows: similarity
of the normalized candidate against each prior text, most recent first,
returning at the first match at or above the threshold.  `simFn` embeds
`difflib.SequenceMatcher(None, s1, s2).ratio()` as an arbitrary similarity
function into the rationals. -/
def isDupScan (simFn : String → String → Rat) (thresh : Rat) (s1 : String) :
    List String → Bool × Rat × Option String
  | [] => (false, 0, none)
  | old :: rest =>
    let s2 := pyLower (pyStrip old)
    let r := simFn s1 s2
    if thresh ≤ r then (true, r, some old) else isDupScan simFn thresh s1 rest

/-- `_is_duplicate`: `fetched = none` embeds any exception raised while
querying the recent posted texts (the `except Exception` branch);
`fetched = some rows` embeds the successful query
`SELECT text FROM drafts WHERE status='posted' ORDER BY id DESC LIMIT window`. -/
def is_duplicate (simFn : String → String → Rat) (thresh : Rat)
    (fetched : Option (List String)) (text : String) :
    Bool × Rat × Option String :=
  match fetched with
  | none => (false, 0, none)
  | some rows => isDupScan simFn thresh (pyLower (pyStrip text)) rows

end Poster

/-! ## The orchestrator: `SafePoster.post` / `SafePoster.reply` -/

/-- Modelled from the spec: `app/rate_limit.py` (`RateLimitWrapper`,
`RateLimitException`) is not under the sources.  Per the spec the publish
collaborator either returns a response carrying the external id, raises a
distinguishable rate-limit condition, or raises a generic failure; this is
the tagged outcome of `RateLimitWrapper.call_with_backoff`.  The payload of
`ok` is the value of `_extract_tweet_id(resp)`, which may be `None`. -/
inductive PublishOutcome
  | ok (extractedId : Option String)
  | rateLimited
  | failed (msg : String)
deriving Repr, DecidableEq

/-- Whether the external publish call returned successfully. -/
def PublishOutcome.isOk : PublishOutcome → Bool
  | .ok _ => true
  | _ => false

/-- Python's `str()` applied to the extracted tweet id (which may be
`None`, in which case the string `"None"` is stored). -/
def pyStrOfId (o : Option String) : String :=
  match o with
  | some s => s
  | none => "None"

/-- The environment of one orchestrator run: the relevant `Config` values
and the outcomes of the two fallible collaborators.  `REQUIRE_POST_APPROVAL`
is read by `log_draft` (the attribute is absent from `app/config.py`;
modelled from the spec as a boolean configuration input).  `dupFetchOk`
records whether `_is_duplicate`'s database read succeeds. -/
structure RunEnv where
  REQUIRE_POST_APPROVAL : Bool
  DRY_RUN : Bool
  publish : PublishOutcome
  dupFetchOk : Bool
deriving Repr, DecidableEq

/-- The observable result of one `post`/`reply` run: the returned pair,
the audit database and quota state afterwards, and two trace bits that
record whether the external publish call was attempted and whether
`record_post`/`record_reply` was invoked. -/
structure RunResult where
  ret_id : Option String
  was_posted : Bool
  db : Audit.DB
  quota : Quota.QuotaState
  publishAttempted : Bool
  recordedQuota : Bool

namespace Poster

/-- The rows fetched by `_is_duplicate`'s query
`SELECT text FROM drafts WHERE status='posted' ORDER BY id DESC LIMIT window`. -/
def recentPostedTexts (db : Audit.DB) (window : Nat) : List String :=
  (((db.drafts.filter (fun d => d.status = "posted")).reverse).map
    (fun d => d.text)).take window

/-- `SafePoster.post`: the full posting decision pipeline.  `simFn` embeds
`difflib.SequenceMatcher(...).ratio()`; `now` is the current time used by
the quota manager. -/
def post (cfg : Quota.QuotaConfig) (env : RunEnv) (simFn : String → String → Rat)
    (now : Int) (text : String) (context : Option String) (force_review : Bool)
    (ab_variant : Option String) (db : Audit.DB) (qst : Quota.QuotaState) :
    RunResult :=
  -- Step 1: log draft
  let step1 := Audit.log_draft env.REQUIRE_POST_APPROVAL text context false [] ab_variant db
  let draft_id := step1.1
  let db1 := step1.2
  -- Step 2: run safety checks and store their outcome on the draft
  let passed_safety := SafetyEnhanced.passes_safety text
  let safety_flags := if passed_safety then [] else SafetyEnhanced.get_safety_flags text
  let db2 := Audit.updateDraft db1 draft_id
    (fun d => { d with safety_passed := passed_safety, safety_flags := safety_flags })
  -- Step 3: decide posting action
  if !passed_safety then
    { ret_id := none, was_posted := false,
      db := Audit.queue_for_review db2 draft_id "safety_check_failed" "normal",
      quota := qst, publishAttempted := false, recordedQuota := false }
  else
    match Quota.can_post cfg now qst with
    | ((false, quota_reason), qst1) =>
      { ret_id := none, was_posted := false,
        db := Audit.queue_for_review db2 draft_id quota_reason "low",
        quota := qst1, publishAttempted := false, recordedQuota := false }
    | ((true, _), qst1) =>
      if force_review then
        { ret_id := none, was_posted := false,
          db := Audit.queue_for_review db2 draft_id "owner_approval_required" "high",
          quota := qst1, publishAttempted := false, recordedQuota := false }
      else
        let fetched := if env.dupFetchOk then some (recentPostedTexts db2 20) else none
        match is_duplicate simFn (85 / 100) fetched text with
        | (true, _, _) =>
          { ret_id := none, was_posted := false,
            db := Audit.queue_for_review db2 draft_id "duplicate_recent" "low",
            quota := qst1, publishAttempted := false, recordedQuota := false }
        | (false, _, _) =>
          -- Step 4: DRY_RUN mode marks the draft posted without any call
          if env.DRY_RUN then
            { ret_id := none, was_posted := false,
              db := Audit.updateDraft db2 draft_id (fun d => { d with status := "posted" }),
              quota := qst1, publishAttempted := false, recordedQuota := false }
          else
            -- Step 5: attempt the external publish call
            match env.publish with
            | .ok extractedId =>
              let tweet_id := pyStrOfId extractedId
              { ret_id := some tweet_id, was_posted := true,
                db := Audit.log_posted_tweet db2 draft_id tweet_id text,
                quota := Quota.record_post now qst1,
                publishAttempted := true, recordedQuota := true }
            | .rateLimited =>
              { ret_id := none, was_posted := false,
                db := Audit.queue_for_review db2 draft_id "rate_limit_exceeded" "high",
                quota := qst1, publishAttempted := true, recordedQuota := false }
            | .failed msg =>
              let db3 := Audit.updateDraft db2 draft_id
                (fun d => { d with status := "error", error_message := some msg })
              { ret_id := none, was_posted := false,
                db := Audit.queue_for_review db3 draft_id "posting_error" "high",
                quota := qst1, publishAttempted := true, recordedQuota := false }

/-- `SafePoster.reply`: same pipeline for replies.  Differences from
`post`, as in the source: the draft context records the replied-to id, the
force-review branch precedes the quota check and queues reason
`forced_review` at normal priority, quota denial is silent (no queue
entry), duplicate detection is not run, and the dry-run branch does not
touch the draft. -/
def reply (cfg : Quota.QuotaConfig) (env : RunEnv) (now : Int)
    (text in_reply_to_tweet_id : String) (force_review : Bool)
    (author_id : Option String) (ab_variant : Option String)
    (db : Audit.DB) (qst : Quota.QuotaState) : RunResult :=
  let step1 := Audit.log_draft env.REQUIRE_POST_APPROVAL text
    (some ("reply_to:" ++ in_reply_to_tweet_id)) false [] ab_variant db
  let draft_id := step1.1
  let db1 := step1.2
  let passed_safety := SafetyEnhanced.passes_safety text
  let safety_flags := if passed_safety then [] else SafetyEnhanced.get_safety_flags text
  let db2 := Audit.updateDraft db1 draft_id
    (fun d => { d with safety_passed := passed_safety, safety_flags := safety_flags })
  if !passed_safety then
    { ret_id := none, was_posted := false,
      db := Audit.queue_for_review db2 draft_id "safety_check_failed" "normal",
      quota := qst, publishAttempted := false, recordedQuota := false }
  else if force_review then
    { ret_id := none, was_posted := false,
      db := Audit.queue_for_review db2 draft_id "forced_review" "normal",
      quota := qst, publishAttempted := false, recordedQuota := false }
  else
    match Quota.can_reply cfg now author_id qst with
    | ((false, _), qst1) =>
      { ret_id := none, was_posted := false, db := db2,
        quota := qst1, publishAttempted := false, recordedQuota := false }
    | ((true, _), qst1) =>
      if env.DRY_RUN then
        { ret_id := none, was_posted := false, db := db2,
          quota := qst1, publishAttempted := false, recordedQuota := false }
      else
        match env.publish with
        | .ok extractedId =>
          let tweet_id := pyStrOfId extractedId
          { ret_id := some tweet_id, was_posted := true,
            db := Audit.log_posted_tweet db2 draft_id tweet_id text,
            quota := Quota.record_reply now author_id qst1,
            publishAttempted := true, recordedQuota := true }
        | .rateLimited =>
          { ret_id := none, was_posted := false,
            db := Audit.queue_for_review db2 draft_id "rate_limit_exceeded" "high",
            quota := qst1, publishAttempted := true, recordedQuota := false }
        | .failed msg =>
          let db3 := Audit.updateDraft db2 draft_id
            (fun d => { d with status := "error", error_message := some msg })
          { ret_id := none, was_posted := false,
            db := Audit.queue_for_review db3 draft_id "posting_error" "high",
            quota := qst1, publishAttempted := true, recordedQuota := false }

end Poster

/-! ## Sequences of pipeline operations -/

/-- One operation of the pipeline as observable on the audit store: an
orchestrator `post` or `reply` run (each with its own environment, time
and inputs) or a human-review `approve`/`reject`. -/
inductive PipeOp
  | opPost (env : RunEnv) (now : Int) (text : String) (context : Option String)
      (force_review : Bool) (ab_variant : Option String)
  | opReply (env : RunEnv) (now : Int) (text in_reply_to : String)
      (force_review : Bool) (author_id : Option String) (ab_variant : Option String)
  | opApprove (draft_id : Nat) (reviewer : String) (notes : Option String)
  | opReject (draft_id : Nat) (reviewer : String) (reason : String)
      (notes : Option String)

/-- The shared system state: the audit database and the quota manager. -/
structure Sys where
  db : Audit.DB
  quota : Quota.QuotaState

/-- The initial system state: empty audit tables, fresh quota windows. -/
def initSys : Sys := { db := Audit.emptyDB, quota := Quota.initState }

/-- Execute one pipeline operation. -/
def stepOp (cfg : Quota.QuotaConfig) (simFn : String → String → Rat)
    (s : Sys) : PipeOp → Sys
  | .opPost env now text ctx force variant =>
    let r := Poster.post cfg env simFn now text ctx force variant s.db s.quota
    { db := r.db, quota := r.quota }
  | .opReply env now text in_reply_to force author variant =>
    let r := Poster.reply cfg env now text in_reply_to force author variant s.db s.quota
    { db := r.db, quota := r.quota }
  | .opApprove draft_id reviewer notes =>
    { s with db := Audit.approve_for_posting s.db draft_id reviewer notes }
  | .opReject draft_id reviewer reason notes =>
    { s with db := Audit.reject_draft s.db draft_id reviewer reason notes }

/-- Execute a sequence of pipeline operations from the initial state. -/
def runOps (cfg : Quota.QuotaConfig) (simFn : String → String → Rat)
    (ops : List PipeOp) : Sys :=
  ops.foldl (stepOp cfg simFn) initSys

/-- A draft satisfies the spec's id/status link: the external post id is
set exactly when the status is `posted`. -/
def draftLinkOk (d : Audit.Draft) : Bool :=
  d.posted_tweet_id.isSome == (d.status == "posted")

/-- The weaker link that actually holds under review operations: a set
external post id implies the status is `posted`, `approved` or `rejected`. -/
def draftLinkWeakOk (d : Audit.Draft) : Bool :=
  !d.posted_tweet_id.isSome ||
    (d.status == "posted" || (d.status == "approved" || d.status == "rejected"))

/-- Operations under which the exact id/status equivalence is preserved:
posts not in dry-run mode, all replies; human review operations and
dry-run posts are excluded. -/
def opKeepsLink : PipeOp → Bool
  | .opPost env _ _ _ _ _ => !env.DRY_RUN
  | .opReply _ _ _ _ _ _ _ => true
  | .opApprove _ _ _ => false
  | .opReject _ _ _ _ => false

/-! ## Concrete fixtures used by counterexamples and witnesses -/

/-- A quota configuration with every cap at 1 and the monthly limit 0
(disabled), month window 30 days. -/
def cfgDefault : Quota.QuotaConfig := ⟨1, 1, 1, 1, 0, 30⟩

/-- A quota configuration with every cap configured to zero. -/
def cfgZeroCaps : Quota.QuotaConfig := ⟨0, 0, 0, 0, 0, 30⟩

/-- A quota configuration with monthly limit 5 over a 1-day window. -/
def cfgMonthly : Quota.QuotaConfig := ⟨9, 9, 9, 9, 5, 1⟩

/-- A degenerate similarity function (never reached in the fixtures that
use it, or yielding no duplicates). -/
def simZero : String → String → Rat := fun _ _ => 0

/-- A candidate text that passes every safety check. -/
def goodText : String := "Valid update about progress today"

/-- A candidate text with a denylisted phrase and an explicit disclaimer. -/
def disclaimerText : String := "Buy now! This is not financial advice."

/-- Environment: no approval requirement, dry-run enabled. -/
def envDryRun : RunEnv := ⟨false, true, .ok none, true⟩

/-- Environment: live mode, publish succeeds with id `101`. -/
def envLiveOk : RunEnv := ⟨false, false, .ok (some "101"), true⟩

/-- Environment: live mode, publish succeeds, duplicate fetch fails. -/
def envLiveNoFetch : RunEnv := ⟨false, false, .ok (some "101"), false⟩

/-- Quota state with one post event at time 0. -/
def qstOnePost : Quota.QuotaState :=
  { Quota.initState with post_events := [0] }

/-- Quota state with an old and a recent event in every window. -/
def qstFrames : Quota.QuotaState :=
  { post_events := [3, 99999], reply_daily_events := [3, 99999],
    reply_hour_events := [3, 99999],
    reply_user_hour_events := fun k => if k = "u1" then [3, 99999] else [],
    monthly_events := [3, 99999] }

/-- A draft row used to populate fixture databases. -/
def draftStub : Audit.Draft :=
  ⟨"a", none, "queued", true, [], none, none, none, none, none, none⟩

/-- A database whose review queue holds a high-priority entry created
first (draft 0) and a normal-priority entry created second (draft 1). -/
def dbTwoEntries : Audit.DB :=
  ⟨[draftStub, draftStub],
   [⟨0, "rate_limit_exceeded", "high", 0, false, none, none, none⟩,
    ⟨1, "safety_check_failed", "normal", 1, false, none, none, none⟩],
   [], 2⟩

/-! ## Helper lemmas -/

theorem runFlags_append (l1 l2 : List (String × SafetyEnhanced.Check)) (text : String) :
    SafetyEnhanced.runFlags (l1 ++ l2) text
      = SafetyEnhanced.runFlags l1 text ++ SafetyEnhanced.runFlags l2 text := by
  induction l1 with
  | nil => rfl
  | cons hd tl ih =>
    obtain ⟨name, f⟩ := hd
    simp [SafetyEnhanced.runFlags, ih, List.append_assoc]

theorem mem_of_not_mem_dropWhile {α : Type} (p : α → Bool) {l : List α} {x : α}
    (hx : x ∈ l) (hnx : x ∉ l.dropWhile p) : p x = true := by
  induction l with
  | nil => cases hx
  | cons a t ih =>
    by_cases hp : p a = true
    · rcases List.mem_cons.mp hx with rfl | hx1
      · exact hp
      · refine ih hx1 ?_
        simpa [List.dropWhile_cons, hp] using hnx
    · rw [List.dropWhile_cons, if_neg hp] at hnx
      exact absurd hx hnx

theorem prune_suffix (l : List Int) (w now : Int) : Quota.prune l w now <:+ l :=
  List.dropWhile_suffix _

theorem prune_removed_old {l : List Int} {w now t : Int} (ht : t ∈ l)
    (hnt : t ∉ Quota.prune l w now) : t < now - w := by
  have h := mem_of_not_mem_dropWhile (fun x => decide (x < now - w)) ht hnt
  exact of_decide_eq_true h

theorem cmb_frame (cfg : Quota.QuotaConfig) (now : Int) (st : Quota.QuotaState) :
    ((Quota.check_monthly_budget cfg now st).2.post_events = st.post_events)
    ∧ ((Quota.check_monthly_budget cfg now st).2.reply_daily_events = st.reply_daily_events)
    ∧ ((Quota.check_monthly_budget cfg now st).2.reply_hour_events = st.reply_hour_events)
    ∧ (∀ k, (Quota.check_monthly_budget cfg now st).2.reply_user_hour_events k
        = st.reply_user_hour_events k)
    ∧ ((Quota.check_monthly_budget cfg now st).2.monthly_events <:+ st.monthly_events)
    ∧ (∀ t ∈ st.monthly_events,
        t ∉ (Quota.check_monthly_budget cfg now st).2.monthly_events →
        t < now - Quota.month_window cfg) := by
  unfold Quota.check_monthly_budget
  dsimp only
  split
  · exact ⟨rfl, rfl, rfl, fun _ => rfl, List.suffix_rfl,
      fun t ht hnt => absurd ht hnt⟩
  · split
    · exact ⟨rfl, rfl, rfl, fun _ => rfl, prune_suffix _ _ _,
        fun t ht hnt => prune_removed_old ht hnt⟩
    · exact ⟨rfl, rfl, rfl, fun _ => rfl, prune_suffix _ _ _,
        fun t ht hnt => prune_removed_old ht hnt⟩

theorem can_post_frame (cfg : Quota.QuotaConfig) (now : Int) (st : Quota.QuotaState) :
    ((Quota.can_post cfg now st).2.post_events <:+ st.post_events)
    ∧ ((Quota.can_post cfg now st).2.monthly_events <:+ st.monthly_events)
    ∧ ((Quota.can_post cfg now st).2.reply_daily_events = st.reply_daily_events)
    ∧ ((Quota.can_post cfg now st).2.reply_hour_events = st.reply_hour_events)
    ∧ (∀ k, (Quota.can_post cfg now st).2.reply_user_hour_events k
        = st.reply_user_hour_events k)
    ∧ (∀ t ∈ st.post_events, t ∉ (Quota.can_post cfg now st).2.post_events →
        t < now - Quota.DAY_SECONDS)
    ∧ (∀ t ∈ st.monthly_events, t ∉ (Quota.can_post cfg now st).2.monthly_events →
        t < now - Quota.month_window cfg) := by
  rcases hm : Quota.check_monthly_budget cfg now st with ⟨⟨b, r⟩, st1⟩
  have hf := cmb_frame cfg now st
  rw [hm] at hf
  dsimp only at hf
  obtain ⟨hp, hd, hh, hu, hmsuf, hmold⟩ := hf
  cases b
  case false =>
    simp only [Quota.can_post, hm]
    exact ⟨hp ▸ List.suffix_rfl, hmsuf, hd, hh, hu,
      fun t ht hnt => absurd (hp ▸ ht) hnt, hmold⟩
  case true =>
    simp only [Quota.can_post, hm]
    split
    · exact ⟨hp ▸ prune_suffix _ _ _, hmsuf, hd, hh, hu,
        fun t ht hnt => prune_removed_old (hp ▸ ht) hnt, hmold⟩
    · exact ⟨hp ▸ prune_suffix _ _ _, hmsuf, hd, hh, hu,
        fun t ht hnt => prune_removed_old (hp ▸ ht) hnt, hmold⟩

theorem can_reply_frame (cfg : Quota.QuotaConfig) (now : Int) (author : Option String)
    (st : Quota.QuotaState) :
    ((Quota.can_reply cfg now author st).2.post_events = st.post_events)
    ∧ ((Quota.can_reply cfg now author st).2.monthly_events <:+ st.monthly_events)
    ∧ ((Quota.can_reply cfg now author st).2.reply_daily_events <:+ st.reply_daily_events)
    ∧ ((Quota.can_reply cfg now author st).2.reply_hour_events <:+ st.reply_hour_events)
    ∧ (∀ k, (Quota.can_reply cfg now author st).2.reply_user_hour_events k
        <:+ st.reply_user_hour_events k)
    ∧ (∀ t ∈ st.reply_daily_events,
        t ∉ (Quota.can_reply cfg now author st).2.reply_daily_events →
        t < now - Quota.DAY_SECONDS)
    ∧ (∀ t ∈ st.reply_hour_events,
        t ∉ (Quota.can_reply cfg now author st).2.reply_hour_events → t < now - 3600)
    ∧ (∀ k, ∀ t ∈ st.reply_user_hour_events k,
        t ∉ (Quota.can_reply cfg now author st).2.reply_user_hour_events k →
        t < now - 3600)
    ∧ (∀ t ∈ st.monthly_events,
        t ∉ (Quota.can_reply cfg now author st).2.monthly_events →
        t < now - Quota.month_window cfg) := by
  rcases hm : Quota.check_monthly_budget cfg now st with ⟨⟨b, r⟩, st1⟩
  have hf := cmb_frame cfg now st
  rw [hm] at hf
  dsimp only at hf
  obtain ⟨hp, hd, hh, hu, hmsuf, hmold⟩ := hf
  cases b
  case false =>
    simp only [Quota.can_reply, hm]
    exact ⟨hp, hmsuf, hd ▸ List.suffix_rfl, hh ▸ List.suffix_rfl,
      fun k => hu k ▸ List.suffix_rfl,
      fun t ht hnt => absurd (hd ▸ ht) hnt,
      fun t ht hnt => absurd (hh ▸ ht) hnt,
      fun k t ht hnt => absurd (hu k ▸ ht) hnt, hmold⟩
  case true =>
    simp only [Quota.can_reply, hm]
    split
    · exact ⟨hp, hmsuf, hd ▸ prune_suffix _ _ _, hh ▸ List.suffix_rfl,
        fun k => hu k ▸ List.suffix_rfl,
        fun t ht hnt => prune_removed_old (hd ▸ ht) hnt,
        fun t ht hnt => absurd (hh ▸ ht) hnt,
        fun k t ht hnt => absurd (hu k ▸ ht) hnt, hmold⟩
    · split
      · exact ⟨hp, hmsuf, hd ▸ prune_suffix _ _ _, hh ▸ prune_suffix _ _ _,
          fun k => hu k ▸ List.suffix_rfl,
          fun t ht hnt => prune_removed_old (hd ▸ ht) hnt,
          fun t ht hnt => prune_removed_old (hh ▸ ht) hnt,
          fun k t ht hnt => absurd (hu k ▸ ht) hnt, hmold⟩
      · split
        · refine ⟨hp, hmsuf, hd ▸ prune_suffix _ _ _, hh ▸ prune_suffix _ _ _, ?_,
            fun t ht hnt => prune_removed_old (hd ▸ ht) hnt,
            fun t ht hnt => prune_removed_old (hh ▸ ht) hnt, ?_, hmold⟩
          · intro k
            by_cases hk : k = Quota.userKey author
            · simp only [hk, if_pos rfl]
              exact hu _ ▸ prune_suffix _ _ _
            · simp only [if_neg hk]
              exact hu k ▸ List.suffix_rfl
          · intro k t ht hnt
            by_cases hk : k = Quota.userKey author
            · subst hk
              simp only [if_pos rfl] at hnt
              exact prune_removed_old (hu _ ▸ ht) hnt
            · simp only [if_neg hk] at hnt
              exact absurd (hu k ▸ ht) hnt
        · refine ⟨hp, hmsuf, hd ▸ prune_suffix _ _ _, hh ▸ prune_suffix _ _ _, ?_,
            fun t ht hnt => prune_removed_old (hd ▸ ht) hnt,
            fun t ht hnt => prune_removed_old (hh ▸ ht) hnt, ?_, hmold⟩
          · intro k
            by_cases hk : k = Quota.userKey author
            · simp only [hk, if_pos rfl]
              exact hu _ ▸ prune_suffix _ _ _
            · simp only [if_neg hk]
              exact hu k ▸ List.suffix_rfl
          · intro k t ht hnt
            by_cases hk : k = Quota.userKey author
            · subst hk
              simp only [if_pos rfl] at hnt
              exact prune_removed_old (hu _ ▸ ht) hnt
            · simp only [if_neg hk] at hnt
              exact absurd (hu k ▸ ht) hnt

/-! ## Claim C2 -/

/-- Claim C2: for every input text, `run_safety_checks` passes exactly when
the accumulated flag list is empty; a check that raises contributes exactly
the synthetic `<check>_error` flag in its position, never being skipped;
and the flag list of the concrete pipeline is the concatenation of the
per-check contributions in the fixed order length, minimum_length,
profanity, financial_advice, urls, toxicity. -/
theorem C2_theorem (checks : List (String × SafetyEnhanced.Check)) (text : String) :
    ((SafetyEnhanced.run_safety_checks checks text).1 = true ↔
      (SafetyEnhanced.run_safety_checks checks text).2 = [])
    ∧ (∀ (pre post : List (String × SafetyEnhanced.Check)) (name : String)
        (f : SafetyEnhanced.Check), f text = none →
        (SafetyEnhanced.run_safety_checks (pre ++ (name, f) :: post) text).2
          = SafetyEnhanced.runFlags pre text ++ [name ++ "_error"]
            ++ SafetyEnhanced.runFlags post text)
    ∧ ((SafetyEnhanced.run_safety_checks SafetyEnhanced.SAFETY_CHECKS text).2
        = SafetyEnhanced.checkFlags text "length"
            (fun t => some (SafetyEnhanced.check_length t))
          ++ SafetyEnhanced.checkFlags text "minimum_length"
            (fun t => some (SafetyEnhanced.check_minimum_length t))
          ++ SafetyEnhanced.checkFlags text "profanity"
            (fun t => some (SafetyEnhanced.check_profanity t))
          ++ SafetyEnhanced.checkFlags text "financial_advice"
            (fun t => some (SafetyEnhanced.check_financial_advice t))
          ++ SafetyEnhanced.checkFlags text "urls"
            (fun t => some (SafetyEnhanced.check_urls t))
          ++ SafetyEnhanced.checkFlags text "toxicity"
            (fun t => some (SafetyEnhanced.check_toxicity t))) := by
  refine ⟨?_, ?_, ?_⟩
  · simp [SafetyEnhanced.run_safety_checks, List.isEmpty_iff]
  · intro pre post name f hf
    simp [SafetyEnhanced.run_safety_checks, runFlags_append,
      SafetyEnhanced.runFlags, SafetyEnhanced.checkFlags, hf]
  · simp [SafetyEnhanced.run_safety_checks, SafetyEnhanced.SAFETY_CHECKS,
      SafetyEnhanced.runFlags, List.append_assoc]

/-- Witness for C2: with the length check followed by a check that raises,
the flags are the length contribution, then exactly `boom_error`. -/
theorem C2_witness :
    (SafetyEnhanced.run_safety_checks
      ([("length", fun t => some (SafetyEnhanced.check_length t))]
        ++ ("boom", fun _ => (none : Option SafetyEnhanced.SafetyCheckResult)) :: []) "ok").2
      = SafetyEnhanced.runFlags
          [("length", fun t => some (SafetyEnhanced.check_length t))] "ok"
        ++ ["boom_error"]
        ++ SafetyEnhanced.runFlags [] "ok" := by
  have h := (C2_theorem
      ([("length", fun t => some (SafetyEnhanced.check_length t))]
        ++ ("boom", fun _ => (none : Option SafetyEnhanced.SafetyCheckResult)) :: [])
      "ok").2.1
    [("length", fun t => some (SafetyEnhanced.check_length t))] []
    "boom" (fun _ => none) rfl
  simpa using h

/-! ## Claim C3 -/

/-- Counterexample to C3 as stated: the text `"Buy now! This is not
financial advice."` contains the disclaimer phrase, yet the safety
evaluation used by the publishing pipeline emits
`financial_advice_detected`. -/
theorem C3_counterexample :
    strContainsSub (pyLower disclaimerText) "not financial advice" = true
    ∧ "financial_advice_detected"
        ∈ (SafetyEnhanced.run_safety_checks SafetyEnhanced.SAFETY_CHECKS disclaimerText).2 := by
  decide

/-- Claim C3 (amended): the pipeline's financial-advice check flags any
denylisted phrase (here `"buy now"`) regardless of disclaimers; the
disclaimer suppression exists only in the legacy checker
`contains_financial_claim` of `app/src/safety.py`, which the publishing
pipeline does not invoke. -/
theorem C3_theorem (text : String) :
    (strContainsSub (pyLower text) "buy now" = true →
      "financial_advice_detected"
        ∈ (SafetyEnhanced.run_safety_checks SafetyEnhanced.SAFETY_CHECKS text).2)
    ∧ ((LegacySafety.IGNORE_PHRASES.any fun ig => strContainsSub (pyLower text) ig) = true →
      LegacySafety.contains_financial_claim text = false) := by
  constructor
  · intro h
    have hmem : "buy now" ∈ SafetyEnhanced.FINANCIAL_ADVICE_KEYWORDS.filter
        (fun kw => strContainsSub (pyLower text) kw) :=
      List.mem_filter.mpr ⟨by decide, h⟩
    have hne : (SafetyEnhanced.FINANCIAL_ADVICE_KEYWORDS.filter
        (fun kw => strContainsSub (pyLower text) kw)).isEmpty = false := by
      cases hh : (SafetyEnhanced.FINANCIAL_ADVICE_KEYWORDS.filter
          (fun kw => strContainsSub (pyLower text) kw)) with
      | nil => rw [hh] at hmem; cases hmem
      | cons a l => simp [hh]
    have hfin : "financial_advice_detected"
        ∈ SafetyEnhanced.checkFlags text "financial_advice"
          (fun t => some (SafetyEnhanced.check_financial_advice t)) := by
      simp [SafetyEnhanced.checkFlags, SafetyEnhanced.check_financial_advice, hne]
    simp only [SafetyEnhanced.run_safety_checks, SafetyEnhanced.SAFETY_CHECKS,
      SafetyEnhanced.runFlags, List.mem_append]
    tauto
  · intro h
    simp [LegacySafety.contains_financial_claim, h]

/-- Witness for C3: the fixture text with the disclaimer still gets the
pipeline flag, while the legacy checker suppresses its claim. -/
theorem C3_witness :
    "financial_advice_detected"
      ∈ (SafetyEnhanced.run_safety_checks SafetyEnhanced.SAFETY_CHECKS disclaimerText).2
    ∧ LegacySafety.contains_financial_claim disclaimerText = false :=
  ⟨(C3_theorem disclaimerText).1 (by decide), (C3_theorem disclaimerText).2 (by decide)⟩

/-! ## Claim C10 -/

/-- Claim C10: `can_post` and `can_reply` never add events to any quota
window — each touched window afterwards is a suffix of what it was before,
untouched windows are unchanged, and every event they remove is older than
the window's duration.  So window event counts are increased solely by
`record_post`/`record_reply`. -/
theorem C10_theorem (cfg : Quota.QuotaConfig) (now : Int) (author : Option String)
    (st : Quota.QuotaState) :
    ((Quota.can_post cfg now st).2.post_events <:+ st.post_events)
    ∧ ((Quota.can_post cfg now st).2.monthly_events <:+ st.monthly_events)
    ∧ ((Quota.can_post cfg now st).2.reply_daily_events = st.reply_daily_events)
    ∧ ((Quota.can_post cfg now st).2.reply_hour_events = st.reply_hour_events)
    ∧ (∀ k, (Quota.can_post cfg now st).2.reply_user_hour_events k
        = st.reply_user_hour_events k)
    ∧ (∀ t ∈ st.post_events, t ∉ (Quota.can_post cfg now st).2.post_events →
        t < now - Quota.DAY_SECONDS)
    ∧ (∀ t ∈ st.monthly_events, t ∉ (Quota.can_post cfg now st).2.monthly_events →
        t < now - Quota.month_window cfg)
    ∧ ((Quota.can_reply cfg now author st).2.post_events = st.post_events)
    ∧ ((Quota.can_reply cfg now author st).2.monthly_events <:+ st.monthly_events)
    ∧ ((Quota.can_reply cfg now author st).2.reply_daily_events <:+ st.reply_daily_events)
    ∧ ((Quota.can_reply cfg now author st).2.reply_hour_events <:+ st.reply_hour_events)
    ∧ (∀ k, (Quota.can_reply cfg now author st).2.reply_user_hour_events k
        <:+ st.reply_user_hour_events k)
    ∧ (∀ t ∈ st.reply_daily_events,
        t ∉ (Quota.can_reply cfg now author st).2.reply_daily_events →
        t < now - Quota.DAY_SECONDS)
    ∧ (∀ t ∈ st.reply_hour_events,
        t ∉ (Quota.can_reply cfg now author st).2.reply_hour_events → t < now - 3600)
    ∧ (∀ k, ∀ t ∈ st.reply_user_hour_events k,
        t ∉ (Quota.can_reply cfg now author st).2.reply_user_hour_events k →
        t < now - 3600)
    ∧ (∀ t ∈ st.monthly_events,
        t ∉ (Quota.can_reply cfg now author st).2.monthly_events →
        t < now - Quota.month_window cfg) := by
  obtain ⟨p1, p2, p3, p4, p5, p6, p7⟩ := can_post_frame cfg now st
  obtain ⟨r1, r2, r3, r4, r5, r6, r7, r8, r9⟩ := can_reply_frame cfg now author st
  exact ⟨p1, p2, p3, p4, p5, p6, p7, r1, r2, r3, r4, r5, r6, r7, r8, r9⟩

/-- Witness for C10: with the monthly limit active, `can_post` prunes the
old event at time 3 out of the daily post window (it is older than one
day before `now = 100000`), and `can_reply` leaves the per-user window a
suffix of itself. -/
theorem C10_witness :
    ((3 : Int) ∈ qstFrames.post_events)
    ∧ ((3 : Int) ∉ (Quota.can_post cfgMonthly 100000 qstFrames).2.post_events)
    ∧ ((3 : Int) < 100000 - Quota.DAY_SECONDS)
    ∧ ((Quota.can_reply cfgMonthly 100000 (some "u1") qstFrames).2.reply_user_hour_events "u1"
        <:+ qstFrames.reply_user_hour_events "u1") := by
  obtain ⟨p1, p2, p3, p4, p5, p6, p7, r1, r2, r3, r4, r5, r6, r7, r8, r9⟩ :=
    C10_theorem cfgMonthly 100000 (some "u1") qstFrames
  exact ⟨by decide, by decide, p6 3 (by decide) (by decide), r5 "u1"⟩

/-! ## Claim C6 -/

/-- Counterexample to C6 as stated: with `POSTS_PER_DAY` configured to
zero the daily post window is not disabled — one recorded post already
makes `can_post` reject with `post_daily_quota_reached`. -/
theorem C6_counterexample :
    cfgZeroCaps.POSTS_PER_DAY = 0
    ∧ (Quota.can_post cfgZeroCaps 0 qstOnePost).1
        = (false, "post_daily_quota_reached") := by
  constructor
  · rfl
  · decide

/-- Claim C6 (amended): a zero or negative cap on the daily post window
and the three reply windows is clamped to an effective cap of 1 (the
window's check stays active); only the monthly cap is disabled by a
non-positive (in particular zero) configured value. -/
theorem C6_theorem (cfg : Quota.QuotaConfig) (now : Int) (author : Option String)
    (st : Quota.QuotaState) :
    (cfg.POSTS_PER_DAY ≤ 0 →
      Quota.can_post cfg now st
        = Quota.can_post { cfg with POSTS_PER_DAY := 1 } now st)
    ∧ (cfg.REPLIES_PER_DAY ≤ 0 →
      Quota.can_reply cfg now author st
        = Quota.can_reply { cfg with REPLIES_PER_DAY := 1 } now author st)
    ∧ (cfg.GLOBAL_REPLIES_PER_HOUR ≤ 0 →
      Quota.can_reply cfg now author st
        = Quota.can_reply { cfg with GLOBAL_REPLIES_PER_HOUR := 1 } now author st)
    ∧ (cfg.REPLIES_PER_USER_PER_HOUR ≤ 0 →
      Quota.can_reply cfg now author st
        = Quota.can_reply { cfg with REPLIES_PER_USER_PER_HOUR := 1 } now author st)
    ∧ (cfg.MONTHLY_WRITE_LIMIT ≤ 0 →
      Quota.check_monthly_budget cfg now st = ((true, ""), st)) := by
  refine ⟨?_, ?_, ?_, ?_, ?_⟩
  · intro h
    have h1 : max cfg.POSTS_PER_DAY 1 = (1 : Int) := max_eq_right (by omega)
    simp only [Quota.can_post, h1, max_self]
    rfl
  · intro h
    have h1 : max cfg.REPLIES_PER_DAY 1 = (1 : Int) := max_eq_right (by omega)
    simp only [Quota.can_reply, h1, max_self]
    rfl
  · intro h
    have h1 : max cfg.GLOBAL_REPLIES_PER_HOUR 1 = (1 : Int) := max_eq_right (by omega)
    simp only [Quota.can_reply, h1, max_self]
    rfl
  · intro h
    have h1 : max cfg.REPLIES_PER_USER_PER_HOUR 1 = (1 : Int) := max_eq_right (by omega)
    simp only [Quota.can_reply, h1, max_self]
    rfl
  · intro h
    simp [Quota.check_monthly_budget, h]

/-- Witness for C6: with every cap configured to zero, the four clamped
windows behave exactly as with cap 1, and the monthly check is disabled. -/
theorem C6_witness :
    (Quota.can_post cfgZeroCaps 0 qstOnePost
      = Quota.can_post { cfgZeroCaps with POSTS_PER_DAY := 1 } 0 qstOnePost)
    ∧ (Quota.can_reply cfgZeroCaps 0 (some "u1") qstOnePost
      = Quota.can_reply { cfgZeroCaps with REPLIES_PER_DAY := 1 } 0 (some "u1") qstOnePost)
    ∧ (Quota.can_reply cfgZeroCaps 0 (some "u1") qstOnePost
      = Quota.can_reply { cfgZeroCaps with GLOBAL_REPLIES_PER_HOUR := 1 } 0 (some "u1") qstOnePost)
    ∧ (Quota.can_reply cfgZeroCaps 0 (some "u1") qstOnePost
      = Quota.can_reply { cfgZeroCaps with REPLIES_PER_USER_PER_HOUR := 1 } 0 (some "u1") qstOnePost)
    ∧ (Quota.check_monthly_budget cfgZeroCaps 0 qstOnePost = ((true, ""), qstOnePost)) := by
  obtain ⟨h1, h2, h3, h4, h5⟩ := C6_theorem cfgZeroCaps 0 (some "u1") qstOnePost
  exact ⟨h1 (by decide), h2 (by decide), h3 (by decide), h4 (by decide), h5 (by decide)⟩

/-! ## Claim C7 -/

/-- Counterexample to C7 as stated: queueing draft 0 twice leaves one row
whose priority was updated in place, but whose reason still holds the
first call's value, not the second's — the upsert updates priority only. -/
theorem C7_counterexample :
    ((Audit.queue_for_review
        (Audit.queue_for_review Audit.emptyDB 0 "safety_check_failed" "normal")
        0 "duplicate_recent" "low").review_queue.map
      (fun e => (e.draft_id, e.reason, e.priority)))
      = [(0, "safety_check_failed", "low")]
    ∧ ¬ ((Audit.queue_for_review
        (Audit.queue_for_review Audit.emptyDB 0 "safety_check_failed" "normal")
        0 "duplicate_recent" "low").review_queue.map
      (fun e => (e.draft_id, e.reason, e.priority)))
      = [(0, "duplicate_recent", "low")] := by
  constructor
  · decide
  · decide

/-- Claim C7 (amended): `queue_for_review` preserves the at-most-one-row
per draft id invariant; a repeated call for a queued draft leaves the row
count unchanged and updates the existing row's priority in place, while
the row's reason (and every other field) keeps its original value; a first
call appends a fresh row. -/
theorem C7_theorem (db : Audit.DB) (i : Nat) (reason priority : String) :
    (db.review_queue.Pairwise (fun a b => a.draft_id ≠ b.draft_id) →
      (Audit.queue_for_review db i reason priority).review_queue.Pairwise
        (fun a b => a.draft_id ≠ b.draft_id))
    ∧ (db.review_queue.any (fun e => e.draft_id = i) = true →
      ((Audit.queue_for_review db i reason priority).review_queue.length
          = db.review_queue.length
        ∧ (Audit.queue_for_review db i reason priority).review_queue
          = db.review_queue.map
              (fun e => if e.draft_id = i then { e with priority := priority } else e)))
    ∧ (db.review_queue.any (fun e => e.draft_id = i) = false →
      (Audit.queue_for_review db i reason priority).review_queue
        = db.review_queue
          ++ [{ draft_id := i, reason := reason, priority := priority,
                created_at := db.clock, reviewed := false, reviewed_at := none,
                reviewer_decision := none, reviewer_notes := none }]) := by
  refine ⟨?_, ?_, ?_⟩
  · intro hpw
    show (Audit.rqUpsert db.review_queue i reason priority db.clock).Pairwise _
    unfold Audit.rqUpsert
    split
    · refine hpw.map _ ?_
      intro a b hab
      have ha : (if a.draft_id = i then { a with priority := priority } else a).draft_id
          = a.draft_id := by
        by_cases h : a.draft_id = i <;> simp [h]
      have hb : (if b.draft_id = i then { b with priority := priority } else b).draft_id
          = b.draft_id := by
        by_cases h : b.draft_id = i <;> simp [h]
      rw [ha, hb]
      exact hab
    · rename_i hany
      rw [List.pairwise_append]
      refine ⟨hpw, List.pairwise_singleton _ _, ?_⟩
      intro a ha b hb
      simp only [List.mem_singleton] at hb
      subst hb
      simp only [List.any_eq_true, decide_eq_true_eq] at hany
      intro hcontra
      exact hany ⟨a, ha, hcontra⟩
  · intro hany
    have hq : (Audit.queue_for_review db i reason priority).review_queue
        = db.review_queue.map
            (fun e => if e.draft_id = i then { e with priority := priority } else e) := by
      show Audit.rqUpsert db.review_queue i reason priority db.clock = _
      unfold Audit.rqUpsert
      rw [if_pos hany]
    exact ⟨by rw [hq, List.length_map], hq⟩
  · intro hany
    show Audit.rqUpsert db.review_queue i reason priority db.clock = _
    unfold Audit.rqUpsert
    rw [if_neg (by simp [hany])]

/-- Witness for C7: on the two-entry fixture database, a repeated call for
draft 0 keeps both the uniqueness invariant and the row count, and a call
for the unqueued draft 5 appends a fresh row. -/
theorem C7_witness :
    ((Audit.queue_for_review dbTwoEntries 0 "x" "low").review_queue.Pairwise
      (fun a b => a.draft_id ≠ b.draft_id))
    ∧ ((Audit.queue_for_review dbTwoEntries 0 "x" "low").review_queue.length
        = dbTwoEntries.review_queue.length)
    ∧ ((Audit.queue_for_review dbTwoEntries 5 "r5" "high").review_queue
        = dbTwoEntries.review_queue
          ++ [{ draft_id := 5, reason := "r5", priority := "high",
                created_at := dbTwoEntries.clock, reviewed := false,
                reviewed_at := none, reviewer_decision := none,
                reviewer_notes := none }]) := by
  obtain ⟨h1, h2, _⟩ := C7_theorem dbTwoEntries 0 "x" "low"
  obtain ⟨_, _, h3⟩ := C7_theorem dbTwoEntries 5 "r5" "high"
  exact ⟨h1 (by decide), (h2 (by decide)).1, h3 (by decide)⟩

/-! ## Claim C8 -/

/-- Claim C8 is violated by the code: `ORDER BY rq.priority DESC` sorts
the TEXT values lexicographically, so on a queue holding a high-priority
entry created first and a normal-priority entry created second,
`get_review_queue` returns the normal-priority entry before the
high-priority one — evaluation of the embedded query at the failing
input. -/
theorem C8_theorem :
    ((Audit.get_review_queue dbTwoEntries true).map
      (fun r => (r.1.draft_id, r.1.priority)))
      = [(1, "normal"), (0, "high")] := by
  decide

/-! ## Claim C9 -/

/-- Claim C9: when the duplicate detector's storage read fails,
`_is_duplicate` fails open, returning `(false, 0.0, None)`; consequently a
candidate that passed the earlier gates still proceeds to the dry-run or
publish step — duplicate detection never blocks the pipeline on its own
failure. -/
theorem C9_theorem (simFn : String → String → Rat) (thresh : Rat) (text : String)
    (cfg : Quota.QuotaConfig) (env : RunEnv) (now : Int) (ctx variant : Option String)
    (db : Audit.DB) (qst : Quota.QuotaState) :
    Poster.is_duplicate simFn thresh none text = (false, 0, none)
    ∧ (env.dupFetchOk = false → SafetyEnhanced.passes_safety text = true →
        (Quota.can_post cfg now qst).1.1 = true →
        (Poster.post cfg env simFn now text ctx false variant db qst).publishAttempted
          = !env.DRY_RUN) := by
  constructor
  · rfl
  · intro hfetch hsafe hquota
    rcases hcp : Quota.can_post cfg now qst with ⟨⟨b, reason⟩, qst1⟩
    rw [hcp] at hquota
    simp only at hquota
    subst hquota
    simp only [Poster.post, hsafe, hfetch, hcp, Bool.not_true, Bool.false_eq_true,
      if_false, if_true, Bool.not_false]
    cases hd : env.DRY_RUN with
    | true => simp [Poster.is_duplicate, hd]
    | false => cases env.publish <;> simp [Poster.is_duplicate, hd]

/-- Witness for C9: a failing duplicate fetch in live mode still reaches
the publish attempt. -/
theorem C9_witness :
    (Poster.post cfgDefault envLiveNoFetch simZero 0 goodText none false none
      Audit.emptyDB Quota.initState).publishAttempted = !envLiveNoFetch.DRY_RUN :=
  (C9_theorem simZero 0 goodText cfgDefault envLiveNoFetch 0 none none
    Audit.emptyDB Quota.initState).2 rfl (by decide) (by decide)

theorem updateAt_append_length {α : Type} (l : List α) (x : α) (f : α → α) :
    Audit.updateAt l.length f (l ++ [x]) = l ++ [f x] := by
  induction l with
  | nil => rfl
  | cons a t ih =>
    show a :: Audit.updateAt t.length f (t ++ [x]) = a :: (t ++ [f x])
    rw [ih]

theorem updateAt_all {α : Type} (p : α → Bool) (f : α → α)
    (hf : ∀ x, p (f x) = true) (i : Nat) (l : List α) (h : l.all p = true) :
    (Audit.updateAt i f l).all p = true := by
  induction l generalizing i with
  | nil => cases i <;> exact h
  | cons a t ih =>
    cases i with
    | zero =>
      simp only [Audit.updateAt, List.all_cons, Bool.and_eq_true] at h ⊢
      exact ⟨hf a, h.2⟩
    | succ j =>
      simp only [Audit.updateAt, List.all_cons, Bool.and_eq_true] at h ⊢
      exact ⟨h.1, ih j h.2⟩

theorem initStatus_ne_posted (b : Bool) :
    ((if b then "pending_approval" else "queued") == "posted") = false := by
  cases b <;> decide

theorem post_all_weak (cfg : Quota.QuotaConfig) (env : RunEnv)
    (simFn : String → String → Rat) (now : Int) (text : String)
    (ctx variant : Option String) (force : Bool) (db : Audit.DB)
    (qst : Quota.QuotaState) (h : db.drafts.all draftLinkWeakOk = true) :
    (Poster.post cfg env simFn now text ctx force variant db qst).db.drafts.all
      draftLinkWeakOk = true := by
  simp only [Poster.post]
  repeat' split
  all_goals
    simp_all [Audit.queue_for_review, Audit.updateDraft, Audit.log_draft,
      Audit.log_posted_tweet, updateAt_append_length, List.all_append,
      draftLinkWeakOk]

theorem reply_all_weak (cfg : Quota.QuotaConfig) (env : RunEnv) (now : Int)
    (text rid : String) (variant : Option String) (force : Bool)
    (author : Option String) (db : Audit.DB) (qst : Quota.QuotaState)
    (h : db.drafts.all draftLinkWeakOk = true) :
    (Poster.reply cfg env now text rid force author variant db qst).db.drafts.all
      draftLinkWeakOk = true := by
  simp only [Poster.reply]
  repeat' split
  all_goals
    simp_all [Audit.queue_for_review, Audit.updateDraft, Audit.log_draft,
      Audit.log_posted_tweet, updateAt_append_length, List.all_append,
      draftLinkWeakOk]

theorem post_all_link (cfg : Quota.QuotaConfig) (env : RunEnv)
    (simFn : String → String → Rat) (now : Int) (text : String)
    (ctx variant : Option String) (force : Bool) (db : Audit.DB)
    (qst : Quota.QuotaState) (hdry : env.DRY_RUN = false)
    (h : db.drafts.all draftLinkOk = true) :
    (Poster.post cfg env simFn now text ctx force variant db qst).db.drafts.all
      draftLinkOk = true := by
  simp only [Poster.post]
  repeat' split
  all_goals
    simp_all [Audit.queue_for_review, Audit.updateDraft, Audit.log_draft,
      Audit.log_posted_tweet, updateAt_append_length, List.all_append,
      draftLinkOk, initStatus_ne_posted]

theorem reply_all_link (cfg : Quota.QuotaConfig) (env : RunEnv) (now : Int)
    (text rid : String) (variant : Option String) (force : Bool)
    (author : Option String) (db : Audit.DB) (qst : Quota.QuotaState)
    (h : db.drafts.all draftLinkOk = true) :
    (Poster.reply cfg env now text rid force author variant db qst).db.drafts.all
      draftLinkOk = true := by
  simp only [Poster.reply]
  repeat' split
  all_goals
    simp_all [Audit.queue_for_review, Audit.updateDraft, Audit.log_draft,
      Audit.log_posted_tweet, updateAt_append_length, List.all_append,
      draftLinkOk, initStatus_ne_posted]

theorem stepOp_weak (cfg : Quota.QuotaConfig) (simFn : String → String → Rat)
    (s : Sys) (op : PipeOp) (h : s.db.drafts.all draftLinkWeakOk = true) :
    (stepOp cfg simFn s op).db.drafts.all draftLinkWeakOk = true := by
  cases op with
  | opPost env now text ctx force variant =>
    exact post_all_weak cfg env simFn now text ctx variant force s.db s.quota h
  | opReply env now text rid force author variant =>
    exact reply_all_weak cfg env now text rid variant force author s.db s.quota h
  | opApprove i reviewer notes =>
    refine updateAt_all _ _ ?_ i s.db.drafts h
    intro x
    simp [draftLinkWeakOk]
  | opReject i reviewer reason notes =>
    refine updateAt_all _ _ ?_ i s.db.drafts h
    intro x
    simp [draftLinkWeakOk]

theorem stepOp_link (cfg : Quota.QuotaConfig) (simFn : String → String → Rat)
    (s : Sys) (op : PipeOp) (hop : opKeepsLink op = true)
    (h : s.db.drafts.all draftLinkOk = true) :
    (stepOp cfg simFn s op).db.drafts.all draftLinkOk = true := by
  cases op with
  | opPost env now text ctx force variant =>
    have hdry : env.DRY_RUN = false := by
      simpa [opKeepsLink] using hop
    exact post_all_link cfg env simFn now text ctx variant force s.db s.quota hdry h
  | opReply env now text rid force author variant =>
    exact reply_all_link cfg env now text rid variant force author s.db s.quota h
  | opApprove i reviewer notes => cases hop
  | opReject i reviewer reason notes => cases hop

theorem runOps_weak (cfg : Quota.QuotaConfig) (simFn : String → String → Rat)
    (ops : List PipeOp) :
    ∀ s : Sys, s.db.drafts.all draftLinkWeakOk = true →
    ((ops.foldl (stepOp cfg simFn) s).db.drafts.all draftLinkWeakOk = true) := by
  induction ops with
  | nil => intro s h; exact h
  | cons op rest ih =>
    intro s h
    exact ih _ (stepOp_weak cfg simFn s op h)

theorem runOps_link (cfg : Quota.QuotaConfig) (simFn : String → String → Rat)
    (ops : List PipeOp) :
    ∀ s : Sys, ops.all opKeepsLink = true → s.db.drafts.all draftLinkOk = true →
    ((ops.foldl (stepOp cfg simFn) s).db.drafts.all draftLinkOk = true) := by
  induction ops with
  | nil => intro s _ h; exact h
  | cons op rest ih =>
    intro s hops h
    simp only [List.all_cons, Bool.and_eq_true] at hops
    exact ih _ hops.2 (stepOp_link cfg simFn s op hops.1 h)

/-! ## Claim C1 -/

/-- Counterexample to C1 as stated: a single dry-run post leaves its draft
with status `posted` and no external post id, so the set-iff-posted
equivalence fails. -/
theorem C1_counterexample :
    ((runOps cfgDefault simZero
        [.opPost envDryRun 0 goodText none false none]).db.drafts.map
      (fun d => (d.status, d.posted_tweet_id)))
      = [("posted", none)]
    ∧ ¬ ((runOps cfgDefault simZero
        [.opPost envDryRun 0 goodText none false none]).db.drafts.all
      draftLinkOk = true) := by
  refine ⟨by decide, by decide⟩

/-- Claim C1 (amended): over every sequence of pipeline operations, a
draft with its external post id set has status `posted`, `approved` or
`rejected` (the id is only ever set together with status `posted`, and
only a later approve/reject moves the status away while keeping the id);
and over sequences with no dry-run post and no approve/reject, the id is
set if and only if the status is `posted`. -/
theorem C1_theorem (cfg : Quota.QuotaConfig) (simFn : String → String → Rat)
    (ops : List PipeOp) :
    ((runOps cfg simFn ops).db.drafts.all draftLinkWeakOk = true)
    ∧ (ops.all opKeepsLink = true →
      (runOps cfg simFn ops).db.drafts.all draftLinkOk = true) := by
  constructor
  · exact runOps_weak cfg simFn ops initSys rfl
  · intro hops
    exact runOps_link cfg simFn ops initSys hops rfl

/-- Witness for C1: a live post whose publish succeeds yields a draft
satisfying the exact id/status equivalence. -/
theorem C1_witness :
    ([PipeOp.opPost envLiveOk 0 goodText none false none].all opKeepsLink = true)
    ∧ ((runOps cfgDefault simZero
        [.opPost envLiveOk 0 goodText none false none]).db.drafts.all
      draftLinkOk = true) :=
  ⟨by decide,
    (C1_theorem cfgDefault simZero
      [.opPost envLiveOk 0 goodText none false none]).2 (by decide)⟩

/-! ## Claim C4 -/

/-- Claim C4: in every `post`/`reply` run, `record_post`/`record_reply` is
invoked exactly when the external publish call was attempted and returned
successfully; dry-run never attempts the publish call, so quota is never
consumed in simulation, on rate-limit or other publish failures, or on any
deferred/queued terminal outcome. -/
theorem C4_theorem (cfg : Quota.QuotaConfig) (env : RunEnv)
    (simFn : String → String → Rat) (now : Int) (text rid : String)
    (ctx variant : Option String) (force : Bool) (author : Option String)
    (db : Audit.DB) (qst : Quota.QuotaState) :
    ((Poster.post cfg env simFn now text ctx force variant db qst).recordedQuota
      = ((Poster.post cfg env simFn now text ctx force variant db qst).publishAttempted
          && env.publish.isOk))
    ∧ (env.DRY_RUN = true →
      (Poster.post cfg env simFn now text ctx force variant db qst).publishAttempted
        = false)
    ∧ ((Poster.reply cfg env now text rid force author variant db qst).recordedQuota
      = ((Poster.reply cfg env now text rid force author variant db qst).publishAttempted
          && env.publish.isOk))
    ∧ (env.DRY_RUN = true →
      (Poster.reply cfg env now text rid force author variant db qst).publishAttempted
        = false) := by
  refine ⟨?_, ?_, ?_, ?_⟩
  · simp only [Poster.post]
    repeat' split
    all_goals simp_all [PublishOutcome.isOk]
  · intro h
    simp only [Poster.post]
    repeat' split
    all_goals simp_all
  · simp only [Poster.reply]
    repeat' split
    all_goals simp_all [PublishOutcome.isOk]
  · intro h
    simp only [Poster.reply]
    repeat' split
    all_goals simp_all

/-- Witness for C4: a dry-run post and a dry-run reply attempt no publish
call and record no quota. -/
theorem C4_witness :
    ((Poster.post cfgDefault envDryRun simZero 0 goodText none false none
        Audit.emptyDB Quota.initState).recordedQuota
      = ((Poster.post cfgDefault envDryRun simZero 0 goodText none false none
          Audit.emptyDB Quota.initState).publishAttempted && envDryRun.publish.isOk))
    ∧ ((Poster.post cfgDefault envDryRun simZero 0 goodText none false none
        Audit.emptyDB Quota.initState).publishAttempted = false)
    ∧ ((Poster.reply cfgDefault envDryRun 0 goodText "9" false (some "u1") none
        Audit.emptyDB Quota.initState).recordedQuota
      = ((Poster.reply cfgDefault envDryRun 0 goodText "9" false (some "u1") none
          Audit.emptyDB Quota.initState).publishAttempted && envDryRun.publish.isOk))
    ∧ ((Poster.reply cfgDefault envDryRun 0 goodText "9" false (some "u1") none
        Audit.emptyDB Quota.initState).publishAttempted = false) := by
  obtain ⟨h1, h2, h3, h4⟩ := C4_theorem cfgDefault envDryRun simZero 0 goodText "9"
    none none false (some "u1") Audit.emptyDB Quota.initState
  exact ⟨h1, h2 rfl, h3, h4 rfl⟩

/-! ## Claim C5 -/

/-- Counterexample to C5 as stated: a safety-passing candidate with the
force-review flag set is not routed to `owner_approval_required`/high when
the quota denies — `post` consults the quota before the force-review flag
and queues with the quota reason at low priority; and in `reply` the
force-review branch queues `forced_review` at normal priority, never
`owner_approval_required`. -/
theorem C5_counterexample :
    SafetyEnhanced.passes_safety goodText = true
    ∧ (Quota.can_post cfgDefault 0 qstOnePost).1.1 = false
    ∧ ((Poster.post cfgDefault envLiveOk simZero 0 goodText none true none
        Audit.emptyDB qstOnePost).db.review_queue.map
      (fun e => (e.reason, e.priority)))
      = [("post_daily_quota_reached", "low")]
    ∧ ((Poster.reply cfgDefault envLiveOk 0 goodText "9" true (some "u1") none
        Audit.emptyDB Quota.initState).db.review_queue.map
      (fun e => (e.reason, e.priority)))
      = [("forced_review", "normal")] := by
  refine ⟨by decide, by decide, by decide, by decide⟩

/-- Claim C5 (amended): in `post` the force-review flag is evaluated after
the quota check — with safety passed and quota allowing, a forced draft is
queued `owner_approval_required` at high priority as its terminal outcome
(no publish attempt); with quota denying, the draft is queued with the
quota reason at low priority even though force-review is set.  In `reply`
the force-review branch does come before the quota consultation (leaving
the quota state untouched) but queues reason `forced_review` at normal
priority. -/
theorem C5_theorem (cfg : Quota.QuotaConfig) (env : RunEnv)
    (simFn : String → String → Rat) (now : Int) (text rid : String)
    (ctx variant : Option String) (author : Option String)
    (db : Audit.DB) (qst : Quota.QuotaState) :
    (SafetyEnhanced.passes_safety text = true →
      (Quota.can_post cfg now qst).1.1 = true →
      ((Poster.post cfg env simFn now text ctx true variant db qst).db.review_queue
          = Audit.rqUpsert db.review_queue db.drafts.length
              "owner_approval_required" "high" (db.clock + 2)
        ∧ (Poster.post cfg env simFn now text ctx true variant db qst).publishAttempted
            = false
        ∧ (Poster.post cfg env simFn now text ctx true variant db qst).ret_id = none
        ∧ (Poster.post cfg env simFn now text ctx true variant db qst).was_posted = false))
    ∧ (SafetyEnhanced.passes_safety text = true →
      (Quota.can_post cfg now qst).1.1 = false →
      (Poster.post cfg env simFn now text ctx true variant db qst).db.review_queue
        = Audit.rqUpsert db.review_queue db.drafts.length
            (Quota.can_post cfg now qst).1.2 "low" (db.clock + 2))
    ∧ (SafetyEnhanced.passes_safety text = true →
      ((Poster.reply cfg env now text rid true author variant db qst).db.review_queue
          = Audit.rqUpsert db.review_queue db.drafts.length
              "forced_review" "normal" (db.clock + 2)
        ∧ (Poster.reply cfg env now text rid true author variant db qst).quota = qst
        ∧ (Poster.reply cfg env now text rid true author variant db qst).publishAttempted
            = false)) := by
  refine ⟨?_, ?_, ?_⟩
  · intro hs hq
    rcases hcp : Quota.can_post cfg now qst with ⟨⟨b, reason⟩, qst1⟩
    rw [hcp] at hq
    simp only at hq
    subst hq
    simp only [Poster.post, hs, hcp, Bool.not_true, Bool.false_eq_true, if_false, if_true]
    refine ⟨rfl, ?_, ?_, ?_⟩ <;> trivial
  · intro hs hq
    rcases hcp : Quota.can_post cfg now qst with ⟨⟨b, reason⟩, qst1⟩
    rw [hcp] at hq
    simp only at hq
    subst hq
    simp only [Poster.post, hs, hcp, Bool.not_true, Bool.false_eq_true, if_false]
    rfl
  · intro hs
    simp only [Poster.reply, hs, Bool.not_true, Bool.false_eq_true, if_false, if_true]
    refine ⟨rfl, ?_, ?_⟩ <;> trivial

/-- Witness for C5: on the fixtures, a forced post with quota available is
queued `owner_approval_required`/high; with the daily quota exhausted it is
queued with the quota reason at low priority; a forced reply is queued
`forced_review`/normal with the quota state untouched. -/
theorem C5_witness :
    ((Poster.post cfgDefault envLiveOk simZero 0 goodText none true none
        Audit.emptyDB Quota.initState).db.review_queue
      = Audit.rqUpsert Audit.emptyDB.review_queue Audit.emptyDB.drafts.length
          "owner_approval_required" "high" (Audit.emptyDB.clock + 2))
    ∧ ((Poster.post cfgDefault envLiveOk simZero 0 goodText none true none
        Audit.emptyDB qstOnePost).db.review_queue
      = Audit.rqUpsert Audit.emptyDB.review_queue Audit.emptyDB.drafts.length
          (Quota.can_post cfgDefault 0 qstOnePost).1.2 "low" (Audit.emptyDB.clock + 2))
    ∧ ((Poster.reply cfgDefault envLiveOk 0 goodText "9" true (some "u1") none
        Audit.emptyDB Quota.initState).db.review_queue
      = Audit.rqUpsert Audit.emptyDB.review_queue Audit.emptyDB.drafts.length
          "forced_review" "normal" (Audit.emptyDB.clock + 2)) := by
  obtain ⟨h1, _, _⟩ := C5_theorem cfgDefault envLiveOk simZero 0 goodText "9"
    none none (some "u1") Audit.emptyDB Quota.initState
  obtain ⟨_, h2, _⟩ := C5_theorem cfgDefault envLiveOk simZero 0 goodText "9"
    none none (some "u1") Audit.emptyDB qstOnePost
  obtain ⟨_, _, h3⟩ := C5_theorem cfgDefault envLiveOk simZero 0 goodText "9"
    none none (some "u1") Audit.emptyDB Quota.initState
  exact ⟨(h1 (by decide) (by decide)).1, h2 (by decide) (by decide),
    (h3 (by decide)).1⟩

end TweetBot
